import Mathlib

/-!
Verification of the zapcloudlogging adapter (src/encoder.go, src/config.go).

The Go package configures the zap logging engine to emit records in the
Cloud Logging field layout.  The shallow embedding below translates the two
source files into Lean: zap levels (Go int8 values) become `Int`; the
encoder callbacks, which in Go write into a supplied
`zapcore.PrimitiveArrayEncoder`, become functions returning the value they
append (an `Appended`); the runtime type assertion
`enc.(zapcore.ArrayEncoder)` becomes an explicit boolean capability flag;
Go `error` results become `Option String` with `none` standing for `nil`.
External zap/zapcore library values that the package references
(TrimmedPath, RFC3339NanoTimeEncoder, OmitKey, DefaultLineEnding,
MillisDurationEncoder) are modelled from the library's documented
behaviour, since they are collaborators of the code under proof.
-/

set_option autoImplicit false

namespace ZapCloudLogging

/-! ## Levels (zapcore.Level is an int8; these are zap's level constants) -/

/-- zapcore.DebugLevel = -1. -/
def DebugLevel : Int := -1

/-- zapcore.InfoLevel = 0. -/
def InfoLevel : Int := 0

/-- zapcore.WarnLevel = 1. -/
def WarnLevel : Int := 1

/-- zapcore.ErrorLevel = 2. -/
def ErrorLevel : Int := 2

/-- zapcore.DPanicLevel = 3. -/
def DPanicLevel : Int := 3

/-- zapcore.PanicLevel = 4. -/
def PanicLevel : Int := 4

/-- zapcore.FatalLevel = 5. -/
def FatalLevel : Int := 5

/-! ## Severity table and encoder (src/encoder.go lines 10-25) -/

/-- The package-level map `logLevelSeverity` from src/encoder.go: a Go map
from zapcore.Level to the Cloud Logging severity string, with entries for
exactly the seven native levels.  A Go map lookup yields `none` here when
the key is absent. -/
def logLevelSeverity (l : Int) : Option String :=
  if l = DebugLevel then some "DEBUG"
  else if l = InfoLevel then some "INFO"
  else if l = WarnLevel then some "WARNING"
  else if l = ErrorLevel then some "ERROR"
  else if l = DPanicLevel then some "CRITICAL"
  else if l = PanicLevel then some "ALERT"
  else if l = FatalLevel then some "EMERGENCY"
  else none

/-- `severityEncoder` from src/encoder.go: it appends
`logLevelSeverity[l]` to the supplied primitive array encoder.  Indexing a
Go map at an absent key yields the value type's zero value, the empty
string, so the model returns `(logLevelSeverity l).getD ""` as the string
appended. -/
def severityEncoder (l : Int) : String :=
  (logLevelSeverity l).getD ""

/-! ## Output model for the primitive/object encoders -/

/-- A single field value written into a zapcore.ObjectEncoder:
`AddString` writes a `str`, `AddInt`/`AddInt64` write an `int`. -/
inductive FieldValue where
  | str (s : String)
  | int (i : Int)
  deriving DecidableEq, Repr

/-- The one value a zapcore encoder callback appends to the supplied
primitive array encoder: either a nested object (a list of keyed fields,
produced through `AppendObject` and the value's `MarshalLogObject`) or a
plain string (produced through `AppendString`). -/
inductive Appended where
  | obj (fields : List (String × FieldValue))
  | str (s : String)
  deriving DecidableEq, Repr

/-! ## strconv.Itoa -/

/-- Go `strconv.Itoa`: the decimal representation of an integer, with a
leading minus sign when negative. -/
def Itoa (n : Int) : String :=
  toString n

/-! ## sourceLocation (src/encoder.go lines 27-53) -/

/-- The `sourceLocation` struct from src/encoder.go. -/
structure SourceLocation where
  File : String
  Line : Int
  Function : String
  deriving DecidableEq, Repr

/-- `sourceLocation.MarshalLogObject` from src/encoder.go: adds the
"file", "line" (stringified with strconv.Itoa) and "function" fields as
strings and returns a nil error (`none`). -/
def SourceLocation.MarshalLogObject (l : SourceLocation) :
    List (String × FieldValue) × Option String :=
  ([("file", .str l.File),
    ("line", .str (Itoa l.Line)),
    ("function", .str l.Function)], none)

/-- zapcore.EntryCaller: the caller descriptor zap hands to the caller
encoder.  `PC` is the program counter (unused by this package's encoder). -/
structure EntryCaller where
  Defined : Bool
  PC : Nat
  File : String
  Line : Int
  Function : String
  deriving DecidableEq, Repr

/-- Go `strings.LastIndexByte` on a character list: the index of the last
occurrence of `c`, or `none` when absent.  File paths are sliced only at
ASCII slash positions, where byte and character indices coincide in valid
UTF-8, so the character-level model is faithful. -/
def lastIndexByte (s : List Char) (c : Char) : Option Nat :=
  match s with
  | [] => none
  | a :: rest =>
    match lastIndexByte rest c with
    | some i => some (i + 1)
    | none => if a = c then some 0 else none

/-- Modelled from the zap library: `zapcore.EntryCaller.FullPath` returns
"undefined" for an undefined caller and otherwise `File ++ ":" ++ Line`. -/
def EntryCaller.FullPath (ec : EntryCaller) : String :=
  if !ec.Defined then "undefined"
  else ec.File ++ ":" ++ Itoa ec.Line

/-- Modelled from the zap library: `zapcore.EntryCaller.TrimmedPath`
returns "undefined" for an undefined caller, the full path when the file
path holds fewer than two slashes, and otherwise the part of the path
after the second-to-last slash followed by ":" and the line number — the
"package/file:line" representation. -/
def EntryCaller.TrimmedPath (ec : EntryCaller) : String :=
  if !ec.Defined then "undefined"
  else
    let cs := ec.File.toList
    match lastIndexByte cs '/' with
    | none => ec.FullPath
    | some idx =>
      match lastIndexByte (cs.take idx) '/' with
      | none => ec.FullPath
      | some idx2 => (cs.drop (idx2 + 1)).asString ++ ":" ++ Itoa ec.Line

/-- `sourceLocationEncoder` from src/encoder.go: when the supplied encoder
also implements zapcore.ArrayEncoder (the capability flag here), append the
`sourceLocation` object built from the caller's File, Line and Function
through its MarshalLogObject; otherwise append the caller's TrimmedPath
string. -/
def sourceLocationEncoder (caller : EntryCaller) (isArrayEncoder : Bool) :
    Appended :=
  if isArrayEncoder then
    .obj (SourceLocation.MarshalLogObject
      { File := caller.File, Line := caller.Line,
        Function := caller.Function }).1
  else
    .str caller.TrimmedPath

/-! ## timestamp (src/encoder.go lines 55-78)

A Go `time.Time` carries a seconds count and a nanoseconds remainder in
[0, 1e9); the model collapses it to the total count of nanoseconds since
the Unix epoch, an `Int`, with the location fixed to UTC (the only datum
the two accessors used by this package depend on). -/

/-- Go `time.Time.Unix`: whole seconds since the epoch, the floor of the
nanosecond count divided by 1e9 (Euclidean division by a positive divisor
is floor division). -/
def timeUnix (t : Int) : Int :=
  t / 1000000000

/-- Go `time.Time.Nanosecond`: the sub-second nanosecond remainder, in
[0, 1e9). -/
def timeNanosecond (t : Int) : Int :=
  t % 1000000000

/-- The `timestamp` struct from src/encoder.go. -/
structure Timestamp where
  Seconds : Int
  Nanos : Int
  deriving DecidableEq, Repr

/-- `timestamp.MarshalLogObject` from src/encoder.go: adds "seconds" with
AddInt64 and "nanos" with AddInt and returns a nil error (`none`). -/
def Timestamp.MarshalLogObject (t : Timestamp) :
    List (String × FieldValue) × Option String :=
  ([("seconds", .int t.Seconds), ("nanos", .int t.Nanos)], none)

/-! RFC 3339 formatting, modelled from the Go time package for the UTC
location: civil date from a day count by the standard era decomposition,
two-digit clock fields, and a fractional second with trailing zeros
removed. -/

/-- Civil (year, month, day) from a count of days since 1970-01-01,
proleptic Gregorian calendar. -/
def civilFromDays (z0 : Int) : Int × Int × Int :=
  let z := z0 + 719468
  let era := z.ediv 146097
  let doe := z.emod 146097
  let yoe := (doe - doe.ediv 1460 + doe.ediv 36524 - doe.ediv 146096).ediv 365
  let y := yoe + era * 400
  let doy := doe - (365 * yoe + yoe.ediv 4 - yoe.ediv 100)
  let mp := (5 * doy + 2).ediv 153
  let d := doy - (153 * mp + 2).ediv 5 + 1
  let m := mp + (if mp < 10 then 3 else -9)
  (y + (if m ≤ 2 then 1 else 0), m, d)

/-- A natural number zero-padded on the left to at least `w` decimal
digits. -/
def padZeros (w : Nat) (n : Nat) : String :=
  let s := toString n
  if s.length < w then (List.replicate (w - s.length) '0').asString ++ s
  else s

/-- A clock or date field, zero-padded to two digits. -/
def pad2 (n : Nat) : String :=
  padZeros 2 n

/-- The year field of an RFC 3339 string, signed and at least four
digits. -/
def yearStr (y : Int) : String :=
  if y < 0 then "-" ++ padZeros 4 (-y).toNat else padZeros 4 y.toNat

/-- The fractional-second part of an RFC3339Nano string: empty when the
nanosecond remainder is zero, otherwise a dot followed by the nine-digit
remainder with trailing zeros removed. -/
def fracStr (n : Nat) : String :=
  if n = 0 then ""
  else
    let digits := (padZeros 9 n).toList
    "." ++ (digits.reverse.dropWhile (fun c => c = '0')).reverse.asString

/-- Modelled from the Go time package: `t.Format(time.RFC3339Nano)` for a
UTC time value given as nanoseconds since the epoch — date, "T", clock,
optional trimmed fraction, and the "Z" zone suffix. -/
def formatRFC3339Nano (t : Int) : String :=
  let dayNs : Int := 86400000000000
  let days := t.ediv dayNs
  let rem := (t.emod dayNs).toNat
  let secOfDay := rem / 1000000000
  let nanos := rem % 1000000000
  let ymd := civilFromDays days
  yearStr ymd.1 ++ "-" ++ pad2 ymd.2.1.toNat ++ "-" ++ pad2 ymd.2.2.toNat ++
    "T" ++ pad2 (secOfDay / 3600) ++ ":" ++ pad2 (secOfDay % 3600 / 60) ++
    ":" ++ pad2 (secOfDay % 60) ++ fracStr nanos ++ "Z"

/-- Modelled from the zap library: `zapcore.RFC3339NanoTimeEncoder`
appends the RFC3339Nano-formatted time string. -/
def RFC3339NanoTimeEncoder (t : Int) : Appended :=
  .str (formatRFC3339Nano t)

/-- `timestampEncoder` from src/encoder.go: when the supplied encoder also
implements zapcore.ArrayEncoder (the capability flag here), append the
`timestamp` object built from `t.Unix()` and `t.Nanosecond()` through its
MarshalLogObject; otherwise delegate to zapcore.RFC3339NanoTimeEncoder. -/
def timestampEncoder (t : Int) (isArrayEncoder : Bool) : Appended :=
  if isArrayEncoder then
    .obj (Timestamp.MarshalLogObject
      { Seconds := timeUnix t, Nanos := timeNanosecond t }).1
  else
    RFC3339NanoTimeEncoder t

/-! ## Encoder configuration (src/encoder.go lines 80-104) -/

/-- Modelled from the zap library: `zapcore.OmitKey` is the empty string,
the marker that suppresses a field from the output. -/
def OmitKey : String := ""

/-- Modelled from the zap library: `zapcore.DefaultLineEnding` is a
newline. -/
def DefaultLineEnding : String := "\n"

/-- Modelled from the zap library: the builtin duration encoders, named by
tag.  The package installs the millisecond one; its floating-point output
is never examined by this package, so the tag identifies the choice. -/
inductive DurationEncoderId where
  | millis
  deriving DecidableEq, Repr

/-- zapcore.MillisDurationEncoder, the builtin chosen by this package. -/
def MillisDurationEncoder : DurationEncoderId :=
  .millis

/-- zapcore.EncoderConfig, restricted to the fields the package's struct
literal sets plus the remaining value fields at their Go zero values
(`SkipLineEnding` false, `EncodeName` nil, `ConsoleSeparator` empty).  The
encoder callbacks carry the Lean types of the models above. -/
structure EncoderConfig where
  MessageKey : String
  LevelKey : String
  TimeKey : String
  NameKey : String
  CallerKey : String
  FunctionKey : String
  StacktraceKey : String
  SkipLineEnding : Bool
  LineEnding : String
  EncodeLevel : Int → String
  EncodeTime : Int → Bool → Appended
  EncodeDuration : DurationEncoderId
  EncodeCaller : EntryCaller → Bool → Appended
  EncodeName : Option (String → Appended)
  ConsoleSeparator : String

/-- The package-level `encoderConfig` variable from src/encoder.go: the
Cloud Logging structured-logging field bindings and the three custom
encoders. -/
def encoderConfig : EncoderConfig where
  MessageKey := "message"
  LevelKey := "severity"
  TimeKey := "timestamp"
  NameKey := "logger"
  CallerKey := "logging.googleapis.com/sourceLocation"
  FunctionKey := OmitKey
  StacktraceKey := "stacktrace"
  SkipLineEnding := false
  LineEnding := DefaultLineEnding
  EncodeLevel := severityEncoder
  EncodeTime := timestampEncoder
  EncodeDuration := MillisDurationEncoder
  EncodeCaller := sourceLocationEncoder
  EncodeName := none
  ConsoleSeparator := ""

/-- `NewProductionEncoderConfig` from src/encoder.go: returns the shared
`encoderConfig` value. -/
def NewProductionEncoderConfig : EncoderConfig :=
  encoderConfig

/-- `NewDevelopmentEncoderConfig` from src/encoder.go: returns the same
shared `encoderConfig` value. -/
def NewDevelopmentEncoderConfig : EncoderConfig :=
  encoderConfig

/-! ## Configuration builders (src/config.go) -/

/-- zap.SamplingConfig: the initial burst count and the steady-state
thereafter count. -/
structure SamplingConfig where
  Initial : Int
  Thereafter : Int
  deriving DecidableEq, Repr

/-- zap.Config, restricted to value content: `Level` is the level stored
in the zap.AtomicLevel built by zap.NewAtomicLevelAt, `Sampling` is the
(possibly nil) pointed-to sampling policy, and the fields the struct
literals omit appear at their Go zero values (`DisableCaller` and
`DisableStacktrace` false, `InitialFields` nil). -/
structure Config where
  Level : Int
  Development : Bool
  DisableCaller : Bool
  DisableStacktrace : Bool
  Sampling : Option SamplingConfig
  Encoding : String
  EncoderCfg : EncoderConfig
  OutputPaths : List String
  ErrorOutputPaths : List String
  InitialFields : List (String × FieldValue)

/-- `NewProductionConfig` from src/config.go. -/
def NewProductionConfig : Config where
  Level := InfoLevel
  Development := false
  DisableCaller := false
  DisableStacktrace := false
  Sampling := some { Initial := 100, Thereafter := 100 }
  Encoding := "json"
  EncoderCfg := NewProductionEncoderConfig
  OutputPaths := ["stderr"]
  ErrorOutputPaths := ["stderr"]
  InitialFields := []

/-- `NewDevelopmentConfig` from src/config.go. -/
def NewDevelopmentConfig : Config where
  Level := DebugLevel
  Development := true
  DisableCaller := false
  DisableStacktrace := false
  Sampling := some { Initial := 100, Thereafter := 100 }
  Encoding := "json"
  EncoderCfg := NewDevelopmentEncoderConfig
  OutputPaths := ["stderr"]
  ErrorOutputPaths := ["stderr"]
  InitialFields := []

/-! ## A state-passing rendering of the builders

The package's only mutable package-level state is the two variables
`logLevelSeverity` and `encoderConfig`; nothing in the package writes
them after initialization.  To state side-effect freedom, the builders are
also rendered as explicit state transformers over that package state. -/

/-- The package-level variable state of zapcloudlogging. -/
structure PkgState where
  levelTable : Int → Option String
  encCfg : EncoderConfig

/-- The package state right after variable initialization. -/
def initialPkgState : PkgState where
  levelTable := logLevelSeverity
  encCfg := encoderConfig

/-- `NewProductionEncoderConfig` as a state transformer: reads the
`encoderConfig` variable, writes nothing. -/
def NewProductionEncoderConfigS (s : PkgState) : EncoderConfig × PkgState :=
  (s.encCfg, s)

/-- `NewDevelopmentEncoderConfigS` as a state transformer: reads the
`encoderConfig` variable, writes nothing. -/
def NewDevelopmentEncoderConfigS (s : PkgState) : EncoderConfig × PkgState :=
  (s.encCfg, s)

/-- `NewProductionConfig` as a state transformer: assembles the struct
literal, calling NewProductionEncoderConfig on the current state. -/
def NewProductionConfigS (s : PkgState) : Config × PkgState :=
  let r := NewProductionEncoderConfigS s
  ({ Level := InfoLevel
     Development := false
     DisableCaller := false
     DisableStacktrace := false
     Sampling := some { Initial := 100, Thereafter := 100 }
     Encoding := "json"
     EncoderCfg := r.1
     OutputPaths := ["stderr"]
     ErrorOutputPaths := ["stderr"]
     InitialFields := [] }, r.2)

/-- `NewDevelopmentConfig` as a state transformer: assembles the struct
literal, calling NewDevelopmentEncoderConfig on the current state. -/
def NewDevelopmentConfigS (s : PkgState) : Config × PkgState :=
  let r := NewDevelopmentEncoderConfigS s
  ({ Level := DebugLevel
     Development := true
     DisableCaller := false
     DisableStacktrace := false
     Sampling := some { Initial := 100, Thereafter := 100 }
     Encoding := "json"
     EncoderCfg := r.1
     OutputPaths := ["stderr"]
     ErrorOutputPaths := ["stderr"]
     InitialFields := [] }, r.2)

/-! ## Sanity examples -/

example : formatRFC3339Nano 1700000000123000000 = "2023-11-14T22:13:20.123Z" := by
  decide

example : EntryCaller.TrimmedPath
    { Defined := true, PC := 0, File := "a/b/c.go", Line := 42,
      Function := "main.Foo" } = "b/c.go:42" := by
  decide

/-! ## Claims -/

/-- Claim C1: for every one of the seven recognized native zap levels,
severityEncoder appends exactly the corresponding documented severity
string: Debug→"DEBUG", Info→"INFO", Warn→"WARNING", Error→"ERROR",
DPanic→"CRITICAL", Panic→"ALERT", Fatal→"EMERGENCY". -/
theorem severityEncoder_seven_levels :
    severityEncoder DebugLevel = "DEBUG" ∧
    severityEncoder InfoLevel = "INFO" ∧
    severityEncoder WarnLevel = "WARNING" ∧
    severityEncoder ErrorLevel = "ERROR" ∧
    severityEncoder DPanicLevel = "CRITICAL" ∧
    severityEncoder PanicLevel = "ALERT" ∧
    severityEncoder FatalLevel = "EMERGENCY" := by
  decide

/-- Claim C2, counterexample: level 6 lies outside the seven recognized
levels (the table has no entry for it), yet severityEncoder appends the
empty string, not a non-empty fallback value. -/
theorem severityEncoder_fallback_counterexample :
    logLevelSeverity 6 = none ∧ severityEncoder 6 = "" := by
  decide

/-- Claim C2, amended: for every severity level outside the seven
recognized native levels, severityEncoder appends the empty string (the
zero value a Go map lookup yields at an absent key), so the severity
field is emitted empty rather than with a non-empty fallback. -/
theorem severityEncoder_unmapped_empty (l : Int) (h : l < -1 ∨ 5 < l) :
    severityEncoder l = "" := by
  simp only [severityEncoder, logLevelSeverity, DebugLevel, InfoLevel,
    WarnLevel, ErrorLevel, DPanicLevel, PanicLevel, FatalLevel]
  rcases h with h | h <;>
    split_ifs <;> first | rfl | omega

/-- Witness for the amended claim C2 at the concrete level 6. -/
theorem severityEncoder_unmapped_empty_witness :
    ((6 : Int) < -1 ∨ 5 < (6 : Int)) ∧ severityEncoder 6 = "" :=
  ⟨Or.inr (by decide), severityEncoder_unmapped_empty 6 (Or.inr (by decide))⟩

/-- Claim C3: for every caller descriptor, sourceLocationEncoder emits an
object with string fields "file" (the file path), "line" (the line number
as a decimal string) and "function" (the function name) when the supplied
encoder is an ArrayEncoder, and otherwise appends the caller's
TrimmedPath string. -/
theorem sourceLocationEncoder_shapes (caller : EntryCaller) :
    sourceLocationEncoder caller true =
      .obj [("file", .str caller.File),
            ("line", .str (Itoa caller.Line)),
            ("function", .str caller.Function)] ∧
    sourceLocationEncoder caller false = .str caller.TrimmedPath :=
  ⟨rfl, rfl⟩

/-- Claim C4: for every time value t, timestampEncoder emits the object
with "seconds" the Unix seconds of t and "nanos" the sub-second
nanosecond remainder of t when the supplied encoder is an ArrayEncoder,
and otherwise appends the RFC3339Nano string for t. -/
theorem timestampEncoder_shapes (t : Int) :
    timestampEncoder t true =
      .obj [("seconds", .int (timeUnix t)),
            ("nanos", .int (timeNanosecond t))] ∧
    timestampEncoder t false = .str (formatRFC3339Nano t) :=
  ⟨rfl, rfl⟩

/-- Claim C5: NewProductionConfig returns minimum level Info, development
false, sampling policy {Initial 100, Thereafter 100}, encoding "json",
and both output destination lists equal to the stderr singleton. -/
theorem NewProductionConfig_fields :
    NewProductionConfig.Level = InfoLevel ∧
    NewProductionConfig.Development = false ∧
    NewProductionConfig.Sampling =
      some { Initial := 100, Thereafter := 100 } ∧
    NewProductionConfig.Encoding = "json" ∧
    NewProductionConfig.OutputPaths = ["stderr"] ∧
    NewProductionConfig.ErrorOutputPaths = ["stderr"] :=
  ⟨rfl, rfl, rfl, rfl, rfl, rfl⟩

/-- Claim C6: NewDevelopmentConfig equals NewProductionConfig with only
the level changed to Debug and the development flag to true; in
particular both builders share the sampling policy, the encoding, the
output lists, and the very same encoder configuration
(NewDevelopmentEncoderConfig equals NewProductionEncoderConfig). -/
theorem NewDevelopmentConfig_differs_only_level_dev :
    NewDevelopmentConfig =
      { NewProductionConfig with Level := DebugLevel, Development := true } ∧
    NewDevelopmentConfig.Sampling = NewProductionConfig.Sampling ∧
    NewDevelopmentConfig.Encoding = NewProductionConfig.Encoding ∧
    NewDevelopmentConfig.OutputPaths = NewProductionConfig.OutputPaths ∧
    NewDevelopmentConfig.ErrorOutputPaths =
      NewProductionConfig.ErrorOutputPaths ∧
    NewDevelopmentConfig.EncoderCfg = NewProductionConfig.EncoderCfg ∧
    NewDevelopmentEncoderConfig = NewProductionEncoderConfig :=
  ⟨rfl, rfl, rfl, rfl, rfl, rfl, rfl⟩

/-- Claim C7: the shared encoder configuration binds message→"message",
level→"severity", time→"timestamp", logger name→"logger",
caller→"logging.googleapis.com/sourceLocation",
stack trace→"stacktrace", and binds the function-name field to the omit
marker (the empty string, which suppresses the field); both builder
entry points return exactly this configuration. -/
theorem encoderConfig_field_bindings :
    encoderConfig.MessageKey = "message" ∧
    encoderConfig.LevelKey = "severity" ∧
    encoderConfig.TimeKey = "timestamp" ∧
    encoderConfig.NameKey = "logger" ∧
    encoderConfig.CallerKey = "logging.googleapis.com/sourceLocation" ∧
    encoderConfig.StacktraceKey = "stacktrace" ∧
    encoderConfig.FunctionKey = OmitKey ∧
    OmitKey = "" ∧
    NewProductionEncoderConfig = encoderConfig ∧
    NewDevelopmentEncoderConfig = encoderConfig :=
  ⟨rfl, rfl, rfl, rfl, rfl, rfl, rfl, rfl, rfl, rfl⟩

/-- Claim C8: both builders, as transformers of the package-variable
state, leave the state unchanged and return the same value on repeated
and interleaved calls, and on the initial state they return exactly the
constant configurations; so the builders are deterministic,
side-effect-free and idempotent. -/
theorem config_builders_pure (s : PkgState) :
    (NewProductionConfigS s).2 = s ∧
    (NewDevelopmentConfigS s).2 = s ∧
    (NewProductionConfigS (NewProductionConfigS s).2).1 =
      (NewProductionConfigS s).1 ∧
    (NewProductionConfigS (NewDevelopmentConfigS s).2).1 =
      (NewProductionConfigS s).1 ∧
    (NewDevelopmentConfigS (NewDevelopmentConfigS s).2).1 =
      (NewDevelopmentConfigS s).1 ∧
    (NewDevelopmentConfigS (NewProductionConfigS s).2).1 =
      (NewDevelopmentConfigS s).1 ∧
    (NewProductionConfigS initialPkgState).1 = NewProductionConfig ∧
    (NewDevelopmentConfigS initialPkgState).1 = NewDevelopmentConfig :=
  ⟨rfl, rfl, rfl, rfl, rfl, rfl, rfl, rfl⟩

/-- Claim C9: on a nested-capable encoder the emitted timestamp object
satisfies the data-model invariant: the nanos component lies in
[0, 1e9) and the seconds component is the whole-second floor, so seconds
and nanos together reconstruct the time value exactly. -/
theorem timestampEncoder_range_invariant (t : Int) :
    timestampEncoder t true =
      .obj [("seconds", .int (timeUnix t)),
            ("nanos", .int (timeNanosecond t))] ∧
    0 ≤ timeNanosecond t ∧
    timeNanosecond t < 1000000000 ∧
    timeUnix t * 1000000000 + timeNanosecond t = t := by
  refine ⟨rfl, ?_, ?_, ?_⟩ <;>
    simp only [timeUnix, timeNanosecond] <;> omega

/-- Claim C10: the MarshalLogObject methods of sourceLocation and
timestamp return a nil error on every input, so the nested-object
branches of the two encoders can never produce a marshalling error. -/
theorem marshalLogObject_no_error (sl : SourceLocation) (ts : Timestamp) :
    (SourceLocation.MarshalLogObject sl).2 = none ∧
    (Timestamp.MarshalLogObject ts).2 = none :=
  ⟨rfl, rfl⟩

end ZapCloudLogging
